import Mathlib

/-!
Verification of tap-aptem (Matatika/tap-aptem) against its design
specification.

The development shallowly embeds the two core components of the tap:

* `tap_aptem/metadata.py` — OData `$metadata` XML parsing into
  `DiscoveredEntity` descriptors (schema discovery);
* `tap_aptem/client.py` and `tap_aptem/pagination.py` — per-entity request
  parameter construction, response validation/classification, and the
  pagination loop.

Python XML element trees are modelled by `XmlElem`; Python dicts by
association lists with insert-or-overwrite semantics (`dinsert`), which
preserves CPython's insertion-order iteration; fallible attribute access
(`element.attrib["X"]`, raising `KeyError`) by `Except String`.  `datetime`
values are identified with their ISO-8601 strings: the code only ever parses
a stored ISO string (`datetime.fromisoformat`) and re-serialises it
(`isoformat`), so the round trip is modelled as the identity.

Collaborator behaviour supplied by the singer-sdk host framework (the
request loop, persisted per-entity cursor state, the offset paginator, and
the generic response classification) is not part of this repository's
sources; those pieces are modelled from the specification and are each
marked `Modelled from the spec:` in their doc comments.
-/

/-- Python dict modelled as an association list: inserting an existing key
updates the value in place (keeping its position), a new key is appended.
This matches CPython dict insertion-order semantics. -/
def dinsert (d : List (String × α)) (k : String) (v : α) : List (String × α) :=
  match d.any (fun p => p.1 == k) with
  | true => d.map (fun p => match p.1 == k with | true => (k, v) | false => p)
  | false => d ++ [(k, v)]

/-- An XML element: tag (possibly namespace-qualified as `{uri}local`),
attributes, and child elements, as produced by `ElementTree`. -/
inductive XmlElem where
  | mk (tag : String) (attribs : List (String × String)) (children : List XmlElem)

def XmlElem.tag : XmlElem → String
  | .mk t _ _ => t

def XmlElem.attribs : XmlElem → List (String × String)
  | .mk _ a _ => a

def XmlElem.children : XmlElem → List XmlElem
  | .mk _ _ c => c

/-- `element.attrib[k]` — raises `KeyError` when the attribute is absent. -/
def XmlElem.attr (e : XmlElem) (k : String) : Except String String :=
  match e.attribs.lookup k with
  | some v => .ok v
  | none => .error ("KeyError: " ++ k)

/-- `element.attrib.get(k)` — `None` when absent. -/
def XmlElem.attrGet (e : XmlElem) (k : String) : Option String :=
  e.attribs.lookup k

/-- Characters after the first closing brace, when one occurs. -/
def after_brace : List Char → Option (List Char)
  | [] => none
  | c :: cs => match c == '\x7d' with
    | true => some cs
    | false => after_brace cs

/-- `_local_name`: `tag.split("}", 1)[-1]` — everything after the first
closing brace, or the whole tag when there is none. -/
def local_name (tag : String) : String :=
  match after_brace tag.data with
  | some rest => ⟨rest⟩
  | none => tag

/-- `s.startswith(pre)` over the underlying character lists. -/
def chars_begin : List Char → List Char → Bool
  | _, [] => true
  | [], _ :: _ => false
  | c :: cs, d :: ds => c == d && chars_begin cs ds

/-- Python `str.startswith`. -/
def str_begins (s pre : String) : Bool :=
  chars_begin s.data pre.data

/-- Python `str.endswith`. -/
def str_ends (s suf : String) : Bool :=
  chars_begin s.data.reverse suf.data.reverse

mutual

/-- `root.iter()`: document-order (preorder) traversal, root included. -/
def XmlElem.iter : XmlElem → List XmlElem
  | .mk t a c => .mk t a c :: XmlElem.iterList c

def XmlElem.iterList : List XmlElem → List XmlElem
  | [] => []
  | e :: es => e.iter ++ XmlElem.iterList es

end

/-- `_iter_children_by_name`: direct children whose local tag name matches. -/
def iter_children_by_name (e : XmlElem) (name : String) : List XmlElem :=
  e.children.filter (fun c => local_name c.tag == name)

/-- `_iter_schema_elements`: every `Schema` element in document order, paired
with its (required) `Namespace` attribute. -/
def iter_schema_elements (root : XmlElem) : Except String (List (XmlElem × String)) :=
  (root.iter.filter (fun el => local_name el.tag == "Schema")).mapM
    (fun el => (el.attr "Namespace").map (el, ·))

/-- Structural JSON-schema values produced by the `singer_sdk.typing`
helpers used in `metadata.py`. -/
inductive JSchema where
  | string
  | boolean
  | integer
  | number
  | datetime
  | date
  | time
  | uuid
  | array (item : JSchema)
  | obj (props : List (String × JSchema)) (additional : Bool)
deriving BEq, Repr

/-- `EDM_TYPE_MAP` from `metadata.py`. -/
def EDM_TYPE_MAP : List (String × JSchema) :=
  [("Edm.String", .string),
   ("Edm.Boolean", .boolean),
   ("Edm.Int16", .integer),
   ("Edm.Int32", .integer),
   ("Edm.Int64", .integer),
   ("Edm.Byte", .integer),
   ("Edm.SByte", .integer),
   ("Edm.Decimal", .number),
   ("Edm.Double", .number),
   ("Edm.Single", .number),
   ("Edm.DateTime", .datetime),
   ("Edm.DateTimeOffset", .datetime),
   ("Edm.Date", .date),
   ("Edm.TimeOfDay", .time),
   ("Edm.Guid", .uuid),
   ("Edm.Binary", .string)]

structure ComplexType where
  name : String
  properties : List (String × String)
  open_type : Bool
deriving BEq, Repr

structure EntityInfo where
  name : String
  properties : List (String × String)
  keys : List String
deriving BEq, Repr

/-- `DiscoveredEntity` from `metadata.py` — exactly the four dataclass
fields declared there (`name`, `jsonschema`, `primary_keys`,
`replication_key`).  The JSON schema is modelled by its top-level list of
(property name, schema) pairs, which is what
`th.PropertiesList(*properties).to_dict()` carries. -/
structure DiscoveredEntity where
  name : String
  jsonschema : List (String × JSchema)
  primary_keys : List String
  replication_key : Option String
deriving BEq, Repr

/-- `_extract_properties`: dict comprehension `{p.Name: p.Type}` over the
`Property` children; missing `Name`/`Type` attributes raise. -/
def extract_properties (type_element : XmlElem) : Except String (List (String × String)) :=
  (iter_children_by_name type_element "Property").foldlM
    (fun d prop => do
      let n ← prop.attr "Name"
      let t ← prop.attr "Type"
      pure (dinsert d n t))
    []

/-- `_extract_complex_types`. -/
def extract_complex_types (root : XmlElem) : Except String (List (String × ComplexType)) := do
  let schemas ← iter_schema_elements root
  schemas.foldlM
    (fun acc sn =>
      (iter_children_by_name sn.1 "ComplexType").foldlM
        (fun acc ct => do
          let name ← ct.attr "Name"
          let props ← extract_properties ct
          pure (dinsert acc (sn.2 ++ "." ++ name)
            ⟨name, props, ct.attrGet "OpenType" == some "true"⟩))
        acc)
    []

/-- `_extract_entity_sets_by_type`: over all `EntityContainer` elements,
map each `EntitySet`'s (required) `EntityType` reference to its (required)
public `Name`. -/
def extract_entity_sets_by_type (root : XmlElem) : Except String (List (String × String)) :=
  (root.iter.filter (fun el => local_name el.tag == "EntityContainer")).foldlM
    (fun acc container =>
      (iter_children_by_name container "EntitySet").foldlM
        (fun acc es => do
          let et ← es.attr "EntityType"
          let n ← es.attr "Name"
          pure (dinsert acc et n))
        acc)
    []

/-- The key comprehension of `_extract_entities_by_type`: the `Name` of
every `PropertyRef` under every `Key` child, in document order.  Note the
source performs no check that the named property exists on the entity. -/
def property_ref_names (entity_type : XmlElem) : Except String (List String) :=
  (iter_children_by_name entity_type "Key").foldlM
    (fun acc key => do
      let ns ← (iter_children_by_name key "PropertyRef").mapM (fun r => r.attr "Name")
      pure (acc ++ ns))
    []

/-- `_extract_entities_by_type`. -/
def extract_entities_by_type (root : XmlElem) : Except String (List (String × EntityInfo)) := do
  let schemas ← iter_schema_elements root
  schemas.foldlM
    (fun acc sn =>
      (iter_children_by_name sn.1 "EntityType").foldlM
        (fun acc et => do
          let name ← et.attr "Name"
          let keys ← property_ref_names et
          let props ← extract_properties et
          pure (dinsert acc (sn.2 ++ "." ++ name) ⟨name, props, keys⟩))
        acc)
    []

/-- `"Collection(" ++ t ++ ")"` stripping:
`removeprefix("Collection(").removesuffix(")")`. -/
def strip_collection (t : String) : String :=
  let inner := t.drop 11
  match str_ends inner ")" with
  | true => inner.dropRight 1
  | false => inner

/-- `_type_to_jsonschema`.  The Python recursion has no cycle guard, so the
embedding carries fuel; `none` marks exhaustion (a type nested deeper than
the fuel), which `discover_entities` surfaces as an error. -/
def type_to_jsonschema : Nat → String → List (String × ComplexType) → Option JSchema
  | 0, _, _ => none
  | fuel + 1, prop_type, complex_types =>
    if str_begins prop_type "Collection(" then
      (type_to_jsonschema fuel (strip_collection prop_type) complex_types).map .array
    else
      match complex_types.lookup prop_type with
      | some ct =>
        (ct.properties.mapM
          (fun p => (type_to_jsonschema fuel p.2 complex_types).map (p.1, ·))).map
          (fun ps => .obj ps ct.open_type)
      | none => some ((EDM_TYPE_MAP.lookup prop_type).getD .string)

/-- `_properties_to_jsonschema`: one `th.Property(name, schema)` per entry,
in order. -/
def properties_to_jsonschema (fuel : Nat) (properties : List (String × String))
    (complex_types : List (String × ComplexType)) : Option (List (String × JSchema)) :=
  properties.mapM (fun p => (type_to_jsonschema fuel p.2 complex_types).map (p.1, ·))

/-- `discover_entities` applied to an already parsed tree (malformed XML is
rejected earlier by the `defusedxml` parser, before this function runs).
For every `(EntityType, EntitySet)` pair in container order it emits a
`DiscoveredEntity`; an `EntitySet` whose `EntityType` has no definition
raises `KeyError` (`entities_by_type[entity_type_name]`), and the
replication key is the first mapped property literally named
`UpdatedDate`, if any. -/
def discover_entities (fuel : Nat) (root : XmlElem) : Except String (List DiscoveredEntity) := do
  let complex_types ← extract_complex_types root
  let entity_sets_by_type ← extract_entity_sets_by_type root
  let entities_by_type ← extract_entities_by_type root
  entity_sets_by_type.mapM (fun es => do
    let entity ←
      match entities_by_type.lookup es.1 with
      | some e => Except.ok e
      | none => Except.error ("KeyError: " ++ es.1)
    let properties ←
      match properties_to_jsonschema fuel entity.properties complex_types with
      | some ps => Except.ok ps
      | none => Except.error "RecursionError: complex-type expansion"
    pure
      { name := es.2
        jsonschema := properties
        primary_keys := entity.keys
        replication_key :=
          (properties.find? (fun p => p.1 == "UpdatedDate")).map (·.1) })

/-! ## client.py / pagination.py embedding -/

/-- `ENTITY_RECORD_LIMITS` from `client.py`. -/
def ENTITY_RECORD_LIMITS : List (String × Nat) :=
  [("LearningPlanEvidences", 5000),
   ("ReviewResponses", 5000),
   ("Users", 1000)]

/-- `page_size`: `ENTITY_RECORD_LIMITS.get(self.name, 100_000)`. -/
def page_size (name : String) : Nat :=
  (ENTITY_RECORD_LIMITS.lookup name).getD 100000

/-- A parsed record: field name to value.  Replication-key values are
ISO-8601 timestamp strings. -/
abbrev Rec : Type := List (String × String)

/-- An HTTP response as the core observes it: status code, the parsed
record array at `$.value[*]`, and the body's `error.message` field. -/
structure Response where
  status : Nat
  records : List Rec
  errorMessage : String

/-- Modelled from the spec: `response_error_message` of the host framework
surfaces the response body's `error.message` field ("error responses carry
a JSON body with an `error.message` field inspected for classification"). -/
def response_error_message (r : Response) : String :=
  r.errorMessage

/-- The three error classifications of §7: entity-scoped resumable skip
(`_ResumableAPIError`), transport-retriable, and fatal. -/
inductive ApiError where
  | resumable (msg : String)
  | retriable (msg : String)
  | fatal (msg : String)
deriving BEq, Repr

inductive LogEntry where
  | warningLog (msg : String)
  | errorLog (msg : String)
deriving BEq, Repr

/-- Modelled from the spec: the generic classification performed by the
HTTP transport collaborator (`super().validate_response`): 2xx succeed,
5xx are surfaced to the collaborator's retry-on-5xx policy, and any other
non-2xx is fatal for the entity, propagated unchanged. -/
def super_validate_response (r : Response) : Option ApiError :=
  if r.status / 100 == 2 then none
  else if r.status ≥ 500 then some (.retriable (response_error_message r))
  else some (.fatal (response_error_message r))

/-- `AptemODataStream.validate_response`: 403 raises the entity-scoped
`_ResumableAPIError`; 414 logs an actionable hint and falls through; every
other status is classified by the generic `super().validate_response`.
Returns the log entries produced alongside the classification. -/
def validate_response (r : Response) : List LogEntry × Option ApiError :=
  if r.status == 403 then
    ([], some (.resumable (response_error_message r)))
  else
    let logs :=
      if r.status == 414 then
        [LogEntry.errorLog "Too many properties requested - reduce selection and try again"]
      else []
    (logs, super_validate_response r)

/-- Per-entity stream configuration carried by the dynamically generated
`AptemODataStream` subclass: stream name, replication key, the schema's
property names in order, the column-selection mask, the child streams with
their selection flags, and the configured `start_date`. -/
structure StreamConfig where
  name : String
  replicationKey : Option String
  schemaProperties : List String
  mask : String → Bool
  childStreams : List (String × Bool)
  startDate : Option String

/-- Modelled from the spec: the per-entity persisted cursor state owned by
the external state-storage collaborator — "state storage with get/set of a
last-seen cursor value per entity" (`state["replication_key_value"]`). -/
structure SyncState where
  replicationKeyValue : Option String
deriving BEq, Repr

/-- A pagination token: an integer offset (offset strategy) or a parsed
timestamp (cursor strategy); timestamps are modelled by their ISO strings. -/
inductive PageToken where
  | int (n : Nat)
  | ts (s : String)
deriving BEq, Repr

/-- `str(x)` on an optional value, as Python would interpolate it. -/
def pyStr : Option String → String
  | some s => s
  | none => "None"

/-- The callback closed over by `get_new_paginator` in cursor mode
(`get_replication_key_value`): it reads the persisted state, ignoring the
`response` argument entirely, and returns the parsed
`replication_key_value` when one is set and truthy, else `None`.
(`datetime.fromisoformat` / `isoformat` are modelled as the identity on the
stored ISO string.) -/
def get_replication_key_value (st : SyncState) (response : Response) : Option String :=
  match st.replicationKeyValue with
  | some v => if v == "" then none else some v
  | none => none

/-- `get_new_paginator`'s starting token: `BaseOffsetPaginator(start_value=0,
page_size=...)` for offset streams, `CallbackPaginator` (whose
`BaseAPIPaginator.__init__` starting value is `None`) for cursor streams. -/
def initial_token (cfg : StreamConfig) : Option PageToken :=
  match cfg.replicationKey with
  | none => some (.int 0)
  | some _ => none

/-- Modelled from the spec: `BaseOffsetPaginator.get_next` under the offset
strategy — "next cursor = previous cursor + number of records actually
returned". -/
def base_offset_get_next (current : Nat) (response : Response) : Option Nat :=
  some (current + response.records.length)

/-- Modelled from the spec: `get_starting_timestamp` — the previously
persisted starting timestamp (the stored cursor, else the configured
`start_date`), defined only for streams with a replication key. -/
def get_starting_timestamp (cfg : StreamConfig) (st : SyncState) : Option String :=
  match cfg.replicationKey with
  | some _ =>
    match st.replicationKeyValue with
    | some v => some v
    | none => cfg.startDate
  | none => none

/-- Request query parameters (a Python dict: later assignments to the same
key overwrite). -/
inductive ParamVal where
  | int (n : Nat)
  | str (s : String)
deriving BEq, Repr

abbrev Params : Type := List (String × ParamVal)

def lookupParam (ps : Params) (k : String) : Option ParamVal :=
  List.lookup k ps

/-- `AptemODataStream.get_url_params`, line by line: `$top` is the page
size; `$orderby` is the replication key when one exists; a persisted
starting timestamp contributes `"{key} ge {ts}"`; an integer token becomes
`$skip` while a timestamp token overwrites `$filter` with the strict
`"{key} gt {ts}"`; selected child streams become `$expand`; the
mask-selected column names become `$select` whenever at least one column
is selected. -/
def get_url_params (cfg : StreamConfig) (st : SyncState) (tok : Option PageToken) : Params :=
  let ps : Params := []
  let ps := dinsert ps "$top" (.int (page_size cfg.name))
  let ps :=
    match cfg.replicationKey with
    | some k => dinsert ps "$orderby" (.str k)
    | none => ps
  let ps :=
    match get_starting_timestamp cfg st with
    | some ts => dinsert ps "$filter" (.str (pyStr cfg.replicationKey ++ " ge " ++ ts))
    | none => ps
  let ps :=
    match tok with
    | some (.int n) => dinsert ps "$skip" (.int n)
    | some (.ts t) => dinsert ps "$filter" (.str (pyStr cfg.replicationKey ++ " gt " ++ t))
    | none => ps
  let selected_child_streams := (cfg.childStreams.filter (·.2)).map (·.1)
  let ps :=
    if selected_child_streams.isEmpty then ps
    else dinsert ps "$expand" (.str (String.intercalate "," selected_child_streams))
  let selected_columns := cfg.schemaProperties.filter cfg.mask
  let ps :=
    if selected_columns.isEmpty then ps
    else dinsert ps "$select" (.str (String.intercalate "," selected_columns))
  ps

/-- Modelled from the spec: after each successfully consumed page the host
writes the last-seen cursor value — the last record's replication-key
value — into the persisted state ("written after each successfully
consumed page"); an empty page, or a last record lacking the key, leaves
the stored value unchanged. -/
def update_state (k : String) (st : SyncState) (rs : List Rec) : SyncState :=
  match rs.getLast? >>= fun r => List.lookup k r with
  | some v => ⟨some v⟩
  | none => st

/-- Outcome of one entity's pagination run: the parameter sets of the
requests actually issued, the records yielded, the log entries, and
whether an exception escaped (`.error`) or the run completed (`.ok`). -/
structure RunResult where
  requests : List Params
  records : List Rec
  logs : List LogEntry
  outcome : Except String Unit
deriving Repr

/-- Modelled from the spec: the host's sequential pagination loop (§5:
"request, parse, yield records, compute next cursor, repeat"), driving the
repository's `get_url_params`, `validate_response`, paginator and state
accesses.  `fetch i` is the response to the `i`-th request.  A
`_ResumableAPIError` is caught by `AptemODataStream.get_records`, which
logs a warning and ends the entity's run without an exception; fatal and
retriable classifications escape to the host.  Termination follows the
host's generic last-page rules — in offset mode the spec's "fewer than a
full page ⇒ last page", in cursor mode "a page with no records is the
last" (the strict `gt` filter eventually produces one) — and, in cursor
mode, a `None` token from the paginator callback also finishes
pagination. -/
def run_pages (cfg : StreamConfig) (fetch : Nat → Response) :
    Nat → Option PageToken → SyncState → Nat → RunResult
  | 0, _, _, _ => ⟨[], [], [], .ok ()⟩
  | fuel + 1, tok, st, i =>
    let ps := get_url_params cfg st tok
    let resp := fetch i
    let v := validate_response resp
    match v.2 with
    | some (.resumable m) =>
      ⟨[ps], [], v.1 ++ [.warningLog m], .ok ()⟩
    | some (.retriable m) => ⟨[ps], [], v.1, .error ("RetriableAPIError: " ++ m)⟩
    | some (.fatal m) => ⟨[ps], [], v.1, .error ("FatalAPIError: " ++ m)⟩
    | none =>
      let rs := resp.records
      match cfg.replicationKey with
      | none =>
        if rs.length < page_size cfg.name then ⟨[ps], rs, v.1, .ok ()⟩
        else
          let next :=
            match tok with
            | some (.int n) => (base_offset_get_next n resp).map PageToken.int
            | _ => none
          match next with
          | none => ⟨[ps], rs, v.1, .ok ()⟩
          | some tok' =>
            let rest := run_pages cfg fetch fuel (some tok') st (i + 1)
            ⟨ps :: rest.requests, rs ++ rest.records, v.1 ++ rest.logs, rest.outcome⟩
      | some k =>
        let st' := update_state k st rs
        if rs.isEmpty then ⟨[ps], rs, v.1, .ok ()⟩
        else
          match get_replication_key_value st' resp with
          | none => ⟨[ps], rs, v.1, .ok ()⟩
          | some v' =>
            let rest := run_pages cfg fetch fuel (some (.ts v')) st' (i + 1)
            ⟨ps :: rest.requests, rs ++ rest.records, v.1 ++ rest.logs, rest.outcome⟩

/-- One full entity run from the paginator's starting token and the
persisted state. -/
def run_stream (cfg : StreamConfig) (fetch : Nat → Response) (fuel : Nat)
    (st : SyncState) : RunResult :=
  run_pages cfg fetch fuel (initial_token cfg) st 0

/-! ## Concrete metadata documents -/

/-- The specification's worked example: `EntityType Name="Learner"` with key
`LearnerId`, properties `LearnerId : Edm.Int32` and
`UpdatedDate : Edm.DateTimeOffset`, exposed via
`EntitySet Name="Learners" EntityType="NS.Learner"`. -/
def learnerRoot : XmlElem :=
  .mk "Schema" [("Namespace", "NS")]
    [.mk "EntityType" [("Name", "Learner")]
      [.mk "Key" [] [.mk "PropertyRef" [("Name", "LearnerId")] []],
       .mk "Property" [("Name", "LearnerId"), ("Type", "Edm.Int32")] [],
       .mk "Property" [("Name", "UpdatedDate"), ("Type", "Edm.DateTimeOffset")] []],
     .mk "EntityContainer" []
       [.mk "EntitySet" [("Name", "Learners"), ("EntityType", "NS.Learner")] []]]

/-- The `DiscoveredEntity` the source yields for `learnerRoot`. -/
def learnerDiscovered : DiscoveredEntity :=
  { name := "Learners"
    jsonschema := [("LearnerId", .integer), ("UpdatedDate", .datetime)]
    primary_keys := ["LearnerId"]
    replication_key := some "UpdatedDate" }

/-- A metadata document whose `Key/PropertyRef` names a property
(`Missing`) that does not exist on its `EntityType` (the only declared
property is `Id`). -/
def danglingRefRoot : XmlElem :=
  .mk "Schema" [("Namespace", "NS")]
    [.mk "EntityType" [("Name", "Thing")]
      [.mk "Key" [] [.mk "PropertyRef" [("Name", "Missing")] []],
       .mk "Property" [("Name", "Id"), ("Type", "Edm.Int32")] []],
     .mk "EntityContainer" []
       [.mk "EntitySet" [("Name", "Things"), ("EntityType", "NS.Thing")] []]]

/-- A `Schema` element with no `Namespace` attribute. -/
def noNamespaceRoot : XmlElem :=
  .mk "Schema" []
    [.mk "EntityType" [("Name", "Thing")] []]

/-- An `EntityType` with no `Name` attribute. -/
def noEntityTypeNameRoot : XmlElem :=
  .mk "Schema" [("Namespace", "NS")]
    [.mk "EntityType" [] []]

/-- An `EntitySet` with no `EntityType` attribute. -/
def noEntitySetTypeRoot : XmlElem :=
  .mk "Schema" [("Namespace", "NS")]
    [.mk "EntityType" [("Name", "Thing")] [],
     .mk "EntityContainer" [] [.mk "EntitySet" [("Name", "Things")] []]]

/-- A `PropertyRef` with no `Name` attribute. -/
def noPropertyRefNameRoot : XmlElem :=
  .mk "Schema" [("Namespace", "NS")]
    [.mk "EntityType" [("Name", "Thing")]
      [.mk "Key" [] [.mk "PropertyRef" [] []]],
     .mk "EntityContainer" []
       [.mk "EntitySet" [("Name", "Things"), ("EntityType", "NS.Thing")] []]]

/-- A one-key `PropertyRef` element. -/
def propRefEl (k : String) : XmlElem :=
  .mk "PropertyRef" [("Name", k)] []

/-- A `Key` element listing the given key property names in order. -/
def keyElOf (ks : List String) : XmlElem :=
  .mk "Key" [] (ks.map propRefEl)

/-- The single declared property of the `Thing` entity type. -/
def idPropEl : XmlElem :=
  .mk "Property" [("Name", "Id"), ("Type", "Edm.Int32")] []

/-- An `EntityType` whose declared key list is `ks`, in that order. -/
def thingTypeEl (ks : List String) : XmlElem :=
  .mk "EntityType" [("Name", "Thing")] [keyElOf ks, idPropEl]

/-- The entity set exposing `NS.Thing` as collection `Things`. -/
def thingSetEl : XmlElem :=
  .mk "EntitySet" [("Name", "Things"), ("EntityType", "NS.Thing")] []

/-- The container exposing `NS.Thing` as collection `Things`. -/
def thingContainerEl : XmlElem :=
  .mk "EntityContainer" [] [thingSetEl]

/-- A metadata document declaring one entity type whose key list is the
given sequence of property names, in that order. -/
def keysRoot (ks : List String) : XmlElem :=
  .mk "Schema" [("Namespace", "NS")] [thingTypeEl ks, thingContainerEl]

/-! ## tap.py stream construction -/

/-- A Python attribute value read off a `DiscoveredEntity`. -/
inductive PyAttr where
  | str (s : String)
  | schema (l : List (String × JSchema))
  | keys (l : List String)
  | optStr (o : Option String)
deriving BEq, Repr

/-- Python attribute access on a `DiscoveredEntity` instance: the dataclass
in `metadata.py` declares exactly the fields `name`, `jsonschema`,
`primary_keys` and `replication_key`; reading any other attribute raises
`AttributeError`. -/
def DiscoveredEntity.getattr (e : DiscoveredEntity) : String → Except String PyAttr
  | "name" => .ok (.str e.name)
  | "jsonschema" => .ok (.schema e.jsonschema)
  | "primary_keys" => .ok (.keys e.primary_keys)
  | "replication_key" => .ok (.optStr e.replication_key)
  | f => .error ("AttributeError: " ++ f)

/-- `TapAptem.discover_streams`, per discovered entity: the loop body first
evaluates `streams_by_entity_name.get(entity.parent_entity_name)` and then
(whichever branch is taken) reads `entity.collection_name`, so both
attribute accesses must succeed before a stream is built.  Returns the
number of streams constructed. -/
def discover_streams (es : List DiscoveredEntity) : Except String Nat :=
  es.foldlM
    (fun acc e => do
      let _ ← e.getattr "parent_entity_name"
      let _ ← e.getattr "collection_name"
      pure (acc + 1))
    0

/-! ## Concrete stream configurations and server behaviours used as inputs -/

/-- A cursor-mode stream over the `Users` entity (page size 1000). -/
def cfgCursor : StreamConfig :=
  { name := "Users", replicationKey := some "UpdatedDate",
    schemaProperties := ["UpdatedDate", "Name"], mask := fun _ => true,
    childStreams := [], startDate := none }

/-- An offset-mode stream over the `Users` entity (no replication key). -/
def cfgOffset : StreamConfig :=
  { name := "Users", replicationKey := none,
    schemaProperties := ["Id"], mask := fun _ => true,
    childStreams := [], startDate := none }

/-- A stream whose column mask selects every schema property. -/
def cfgAllSelected : StreamConfig :=
  { name := "Widgets", replicationKey := none,
    schemaProperties := ["a", "b"], mask := fun _ => true,
    childStreams := [], startDate := none }

/-- A server that always answers a 2xx page of two records, the last one
carrying `UpdatedDate = 2024-01-02T00:00:00`. -/
def fetchCursorPages : Nat → Response := fun _ =>
  { status := 200,
    records := [[("UpdatedDate", "2024-01-01T00:00:00")],
                [("UpdatedDate", "2024-01-02T00:00:00")]],
    errorMessage := "" }

/-- A server that always answers a full 2xx page of 1000 records. -/
def fetchOffsetPages : Nat → Response := fun _ =>
  { status := 200, records := List.replicate 1000 [("Id", "1")], errorMessage := "" }

/-- A server that always answers 403 Forbidden. -/
def fetch403 : Nat → Response := fun _ =>
  { status := 403, records := [], errorMessage := "Forbidden: the API token lacks access to this entity" }

/-- A server whose 2xx records carry no replication-key field. -/
def fetchNoKey : Nat → Response := fun _ =>
  { status := 200, records := [[("Other", "x")]], errorMessage := "" }

/-- A 400 Bad Request whose body message matches a transient-server phrase. -/
def transient400 : Response :=
  { status := 400, records := [],
    errorMessage := "An error occurred while processing this request. Please try again." }

/-! ## Helper lemmas -/

theorem lookup_dinsert_self (d : List (String × α)) (k : String) (v : α) :
    List.lookup k (dinsert d k v) = some v := by
  unfold dinsert
  cases hAny : d.any (fun p => p.1 == k) with
  | false =>
    induction d with
    | nil => simp [List.lookup_cons]
    | cons p d ih =>
      obtain ⟨a, b⟩ := p
      simp only [List.any_cons, Bool.or_eq_false_iff] at hAny
      obtain ⟨h1, h2⟩ := hAny
      have hk : (k == a) = false := by
        rw [beq_eq_false_iff_ne] at h1 ⊢
        exact fun e => h1 e.symm
      simp only [List.cons_append]
      rw [List.lookup_cons]
      simp only [hk]
      exact ih h2
  | true =>
    induction d with
    | nil => simp at hAny
    | cons p d ih =>
      obtain ⟨a, b⟩ := p
      cases hp : a == k with
      | true =>
        simp only [List.map_cons, hp]
        rw [List.lookup_cons]
        simp
      | false =>
        have h' : (d.any fun p => p.1 == k) = true := by
          simp only [List.any_cons, Bool.or_eq_true] at hAny
          rcases hAny with h | h
          · rw [hp] at h; exact absurd h (by simp)
          · exact h
        have hk : (k == a) = false := by
          rw [beq_eq_false_iff_ne] at hp ⊢
          exact fun e => hp e.symm
        simp only [List.map_cons, hp]
        rw [List.lookup_cons]
        simp only [hk]
        exact ih h'

theorem map_dinsert_id (d : List (String × α)) (k : String) (v : α)
    (h : (d.any fun p => p.1 == k) = false) :
    d.map (fun p => match p.1 == k with | true => (k, v) | false => p) = d := by
  induction d with
  | nil => rfl
  | cons p d ih =>
    obtain ⟨a, b⟩ := p
    simp only [List.any_cons, Bool.or_eq_false_iff] at h
    obtain ⟨h1, h2⟩ := h
    simp only [List.map_cons, h1, ih h2]

theorem lookup_dinsert_ne (d : List (String × α)) (k k' : String) (v : α)
    (hne : k' ≠ k) : List.lookup k' (dinsert d k v) = List.lookup k' d := by
  unfold dinsert
  cases hAny : d.any (fun p => p.1 == k) with
  | false =>
    induction d with
    | nil =>
      simp only [List.nil_append, List.lookup_cons, List.lookup_nil]
      rw [show (k' == k) = false from beq_eq_false_iff_ne.mpr hne]
    | cons p d ih =>
      obtain ⟨a, b⟩ := p
      simp only [List.any_cons, Bool.or_eq_false_iff] at hAny
      obtain ⟨h1, h2⟩ := hAny
      simp only [List.cons_append]
      rw [List.lookup_cons, List.lookup_cons]
      cases hka : k' == a with
      | true => simp
      | false => simp only [ih h2]
  | true =>
    induction d with
    | nil => simp at hAny
    | cons p d ih =>
      obtain ⟨a, b⟩ := p
      cases hp : a == k with
      | true =>
        have ha : a = k := by rwa [beq_iff_eq] at hp
        have hk'a : (k' == a) = false := beq_eq_false_iff_ne.mpr (ha ▸ hne)
        have hk'k : (k' == k) = false := beq_eq_false_iff_ne.mpr hne
        simp only [List.map_cons, hp]
        rw [List.lookup_cons, List.lookup_cons]
        simp only [hk'a, hk'k]
        cases hAny' : d.any (fun p => p.1 == k) with
        | true => exact ih hAny'
        | false => rw [map_dinsert_id d k v hAny']
      | false =>
        simp only [List.map_cons, hp]
        rw [List.lookup_cons, List.lookup_cons]
        cases k' == a with
        | true => rfl
        | false =>
          have h' : (d.any fun p => p.1 == k) = true := by
            simp only [List.any_cons, Bool.or_eq_true] at hAny
            rcases hAny with h | h
            · rw [hp] at h; exact absurd h (by simp)
            · exact h
          exact ih h'

theorem mapM_ok_mem {ε α β : Type} (f : α → Except ε β) :
    ∀ (xs : List α) (ys : List β), xs.mapM f = .ok ys →
      ∀ y ∈ ys, ∃ x ∈ xs, f x = .ok y := by
  intro xs
  induction xs with
  | nil =>
    intro ys h y hy
    simp only [List.mapM_nil] at h
    cases h
    simp at hy
  | cons x xs ih =>
    intro ys h y hy
    rw [List.mapM_cons] at h
    cases hfx : f x with
    | error e =>
      rw [hfx] at h
      simp only [Bind.bind, Except.bind] at h
      cases h
    | ok b =>
      rw [hfx] at h
      simp only [Bind.bind, Except.bind] at h
      cases hrest : xs.mapM f with
      | error e =>
        rw [hrest] at h
        cases h
      | ok bs =>
        rw [hrest] at h
        simp only [pure, Except.pure, Except.ok.injEq] at h
        subst h
        rcases List.mem_cons.mp hy with hEq | hMem
        · exact ⟨x, List.mem_cons_self x xs, hEq ▸ hfx⟩
        · obtain ⟨x', hx', hfx'⟩ := ih bs hrest y hMem
          exact ⟨x', List.mem_cons_of_mem x hx', hfx'⟩

theorem find_updated_date (l : List (String × JSchema)) :
    (((l.find? (fun p => p.1 == "UpdatedDate")).map (·.1) = some "UpdatedDate") ↔
      "UpdatedDate" ∈ l.map Prod.fst) ∧
    (∀ v, (l.find? (fun p => p.1 == "UpdatedDate")).map (·.1) = some v →
      v = "UpdatedDate") := by
  induction l with
  | nil => simp
  | cons p l ih =>
    obtain ⟨a, b⟩ := p
    cases ha : a == "UpdatedDate" with
    | true =>
      have ha' : a = "UpdatedDate" := by rwa [beq_iff_eq] at ha
      rw [List.find?_cons_of_pos _ (by simpa using ha)]
      subst ha'
      simp
    | false =>
      have ha' : a ≠ "UpdatedDate" := by rwa [beq_eq_false_iff_ne] at ha
      rw [List.find?_cons_of_neg _ (by simpa using ha')]
      constructor
      · rw [ih.1, List.map_cons, List.mem_cons]
        exact ⟨Or.inr, fun h => h.resolve_left (fun e => ha' e.symm)⟩
      · exact ih.2

theorem iterList_map_propRef (ks : List String) :
    XmlElem.iterList (ks.map propRefEl) = ks.map propRefEl := by
  induction ks with
  | nil => rfl
  | cons k ks ih => simp [XmlElem.iterList, XmlElem.iter, propRefEl, ih]

theorem filter_map_propRef (ks : List String) (s : String)
    (h : ("PropertyRef" == s) = false) :
    (ks.map propRefEl).filter (fun el => local_name el.tag == s) = [] := by
  induction ks with
  | nil => rfl
  | cons k ks ih =>
    rw [List.map_cons, List.filter_cons]
    rw [show local_name (propRefEl k).tag = "PropertyRef" from rfl, h]
    simpa using ih

theorem filter_map_propRef_self (ks : List String) :
    (ks.map propRefEl).filter (fun el => local_name el.tag == "PropertyRef") =
      ks.map propRefEl := by
  induction ks with
  | nil => rfl
  | cons k ks ih =>
    rw [List.map_cons, List.filter_cons]
    rw [show (local_name (propRefEl k).tag == "PropertyRef") = true from rfl]
    simpa using ih

theorem mapM_attr_name (ks : List String) :
    (ks.map propRefEl).mapM (fun r => r.attr "Name") = Except.ok ks := by
  induction ks with
  | nil => rfl
  | cons k ks ih =>
    rw [List.map_cons, List.mapM_cons]
    rw [show (propRefEl k).attr "Name" = Except.ok k from rfl]
    simp only [Bind.bind, Except.bind, ih, pure, Except.pure]

theorem iter_keysRoot (ks : List String) :
    (keysRoot ks).iter =
      [keysRoot ks, thingTypeEl ks, keyElOf ks] ++ ks.map propRefEl ++
        [idPropEl, thingContainerEl, thingSetEl] := by
  simp [keysRoot, thingTypeEl, keyElOf, thingContainerEl, thingSetEl, idPropEl,
    XmlElem.iter, XmlElem.iterList, iterList_map_propRef]

theorem schemas_keysRoot (ks : List String) :
    iter_schema_elements (keysRoot ks) = .ok [(keysRoot ks, "NS")] := by
  unfold iter_schema_elements
  rw [iter_keysRoot]
  simp [List.filter_append, filter_map_propRef ks "Schema" rfl, List.filter_cons,
    show (local_name (keysRoot ks).tag == "Schema") = true from rfl,
    show (local_name (thingTypeEl ks).tag == "Schema") = false from rfl,
    show (local_name (keyElOf ks).tag == "Schema") = false from rfl,
    show (local_name idPropEl.tag == "Schema") = false from rfl,
    show (local_name thingContainerEl.tag == "Schema") = false from rfl,
    show (local_name thingSetEl.tag == "Schema") = false from rfl,
    show ((keysRoot ks).attr "Namespace") = Except.ok "NS" from rfl,
    List.mapM_cons, Bind.bind, Except.bind, Except.map, pure, Except.pure]
  rfl

theorem ects_keysRoot (ks : List String) :
    extract_complex_types (keysRoot ks) = .ok [] := by
  unfold extract_complex_types
  rw [schemas_keysRoot]
  rfl

theorem sets_keysRoot (ks : List String) :
    extract_entity_sets_by_type (keysRoot ks) = .ok [("NS.Thing", "Things")] := by
  unfold extract_entity_sets_by_type
  rw [iter_keysRoot]
  simp [List.filter_append, filter_map_propRef ks "EntityContainer" rfl, List.filter_cons,
    show (local_name (keysRoot ks).tag == "EntityContainer") = false from rfl,
    show (local_name (thingTypeEl ks).tag == "EntityContainer") = false from rfl,
    show (local_name (keyElOf ks).tag == "EntityContainer") = false from rfl,
    show (local_name idPropEl.tag == "EntityContainer") = false from rfl,
    show (local_name thingContainerEl.tag == "EntityContainer") = true from rfl,
    show (local_name thingSetEl.tag == "EntityContainer") = false from rfl]
  rfl

theorem prn_thingTypeEl (ks : List String) :
    property_ref_names (thingTypeEl ks) = .ok ks := by
  unfold property_ref_names
  rw [show iter_children_by_name (thingTypeEl ks) "Key" = [keyElOf ks] from rfl]
  rw [List.foldlM_cons]
  rw [show iter_children_by_name (keyElOf ks) "PropertyRef" =
        (ks.map propRefEl).filter (fun c => local_name c.tag == "PropertyRef") from rfl]
  rw [filter_map_propRef_self, mapM_attr_name]
  simp only [Bind.bind, Except.bind, List.foldlM_nil, pure, Except.pure, List.nil_append]

theorem ents_keysRoot (ks : List String) :
    extract_entities_by_type (keysRoot ks) =
      .ok [("NS.Thing", { name := "Thing", properties := [("Id", "Edm.Int32")], keys := ks })] := by
  unfold extract_entities_by_type
  rw [schemas_keysRoot]
  simp only [Bind.bind, Except.bind, List.foldlM_cons, List.foldlM_nil]
  rw [show iter_children_by_name (keysRoot ks) "EntityType" = [thingTypeEl ks] from rfl]
  simp only [List.foldlM_cons, List.foldlM_nil]
  rw [show (thingTypeEl ks).attr "Name" = Except.ok "Thing" from rfl]
  simp only [Bind.bind, Except.bind]
  rw [prn_thingTypeEl]
  rw [show extract_properties (thingTypeEl ks) = Except.ok [("Id", "Edm.Int32")] from rfl]
  simp only [Bind.bind, Except.bind, pure, Except.pure]
  rfl

theorem discover_entities_shape (fuel : Nat) (root : XmlElem)
    (es : List DiscoveredEntity) (h : discover_entities fuel root = .ok es) :
    ∀ e ∈ es,
      e.replication_key = ((e.jsonschema.find? (fun p => p.1 == "UpdatedDate")).map (·.1)) := by
  unfold discover_entities at h
  cases h1 : extract_complex_types root with
  | error e => rw [h1] at h; simp only [Bind.bind, Except.bind] at h; cases h
  | ok cts =>
  rw [h1] at h; simp only [Bind.bind, Except.bind] at h
  cases h2 : extract_entity_sets_by_type root with
  | error e => rw [h2] at h; cases h
  | ok sets =>
  rw [h2] at h
  cases h3 : extract_entities_by_type root with
  | error e => rw [h3] at h; cases h
  | ok ents =>
  rw [h3] at h
  intro e he
  obtain ⟨x, _, hstep⟩ := mapM_ok_mem _ sets es h e he
  cases h4 : ents.lookup x.1 with
  | none => rw [h4] at hstep; simp only [Bind.bind, Except.bind] at hstep; cases hstep
  | some ent =>
  rw [h4] at hstep; simp only [Bind.bind, Except.bind] at hstep
  cases h5 : properties_to_jsonschema fuel ent.properties cts with
  | none => rw [h5] at hstep; simp only [Bind.bind, Except.bind] at hstep; cases hstep
  | some ps =>
  rw [h5] at hstep
  simp only [Bind.bind, Except.bind, pure, Except.pure, Except.ok.injEq] at hstep
  subst hstep
  rfl

theorem lookup_params_top (cfg : StreamConfig) (st : SyncState) (tok : Option PageToken) :
    lookupParam (get_url_params cfg st tok) "$top" = some (.int (page_size cfg.name)) := by
  unfold get_url_params lookupParam
  cases hrk : cfg.replicationKey with
  | none =>
    simp only [get_starting_timestamp, hrk]
    cases tok with
    | none =>
      cases h1 : ((cfg.childStreams.filter (·.2)).map (·.1)).isEmpty <;>
        cases h2 : (cfg.schemaProperties.filter cfg.mask).isEmpty <;>
          simp [h1, h2, lookup_dinsert_ne, lookup_dinsert_self]
    | some t =>
      cases t <;>
        cases h1 : ((cfg.childStreams.filter (·.2)).map (·.1)).isEmpty <;>
          cases h2 : (cfg.schemaProperties.filter cfg.mask).isEmpty <;>
            simp [h1, h2, lookup_dinsert_ne, lookup_dinsert_self]
  | some k =>
    simp only [get_starting_timestamp, hrk]
    cases hsv : st.replicationKeyValue <;> cases hsd : cfg.startDate <;>
      rcases tok with _ | ⟨n⟩ | ⟨s⟩ <;>
        cases h1 : ((cfg.childStreams.filter (·.2)).map (·.1)).isEmpty <;>
          cases h2 : (cfg.schemaProperties.filter cfg.mask).isEmpty <;>
            simp [h1, h2, lookup_dinsert_ne, lookup_dinsert_self]

theorem lookup_params_skip (cfg : StreamConfig) (st : SyncState) (n : Nat) :
    lookupParam (get_url_params cfg st (some (.int n))) "$skip" = some (.int n) := by
  unfold get_url_params lookupParam
  cases hrk : cfg.replicationKey with
  | none =>
    simp only [get_starting_timestamp, hrk]
    cases h1 : ((cfg.childStreams.filter (·.2)).map (·.1)).isEmpty <;>
      cases h2 : (cfg.schemaProperties.filter cfg.mask).isEmpty <;>
        simp [h1, h2, lookup_dinsert_ne, lookup_dinsert_self]
  | some k =>
    simp only [get_starting_timestamp, hrk]
    cases hsv : st.replicationKeyValue <;> cases hsd : cfg.startDate <;>
      cases h1 : ((cfg.childStreams.filter (·.2)).map (·.1)).isEmpty <;>
        cases h2 : (cfg.schemaProperties.filter cfg.mask).isEmpty <;>
          simp [h1, h2, lookup_dinsert_ne, lookup_dinsert_self]

theorem lookup_params_filter_ts (cfg : StreamConfig) (st : SyncState) (v : String) :
    lookupParam (get_url_params cfg st (some (.ts v))) "$filter" =
      some (.str (pyStr cfg.replicationKey ++ " gt " ++ v)) := by
  unfold get_url_params lookupParam
  cases hrk : cfg.replicationKey with
  | none =>
    simp only [get_starting_timestamp, hrk]
    cases h1 : ((cfg.childStreams.filter (·.2)).map (·.1)).isEmpty <;>
      cases h2 : (cfg.schemaProperties.filter cfg.mask).isEmpty <;>
        simp [h1, h2, lookup_dinsert_ne, lookup_dinsert_self]
  | some k =>
    simp only [get_starting_timestamp, hrk]
    cases hsv : st.replicationKeyValue <;> cases hsd : cfg.startDate <;>
      cases h1 : ((cfg.childStreams.filter (·.2)).map (·.1)).isEmpty <;>
        cases h2 : (cfg.schemaProperties.filter cfg.mask).isEmpty <;>
          simp [h1, h2, lookup_dinsert_ne, lookup_dinsert_self]

theorem lookup_params_select (cfg : StreamConfig) (st : SyncState) (tok : Option PageToken) :
    lookupParam (get_url_params cfg st tok) "$select" =
      match (cfg.schemaProperties.filter cfg.mask).isEmpty with
      | true => none
      | false =>
        some (.str (String.intercalate "," (cfg.schemaProperties.filter cfg.mask))) := by
  unfold get_url_params lookupParam
  cases hrk : cfg.replicationKey with
  | none =>
    simp only [get_starting_timestamp, hrk]
    rcases tok with _ | ⟨n⟩ | ⟨s⟩ <;>
      cases h1 : ((cfg.childStreams.filter (·.2)).map (·.1)).isEmpty <;>
        cases h2 : (cfg.schemaProperties.filter cfg.mask).isEmpty <;>
          simp [h1, h2, lookup_dinsert_ne, lookup_dinsert_self]
  | some k =>
    simp only [get_starting_timestamp, hrk]
    cases hsv : st.replicationKeyValue <;> cases hsd : cfg.startDate <;>
      rcases tok with _ | ⟨n⟩ | ⟨s⟩ <;>
        cases h1 : ((cfg.childStreams.filter (·.2)).map (·.1)).isEmpty <;>
          cases h2 : (cfg.schemaProperties.filter cfg.mask).isEmpty <;>
            simp [h1, h2, lookup_dinsert_ne, lookup_dinsert_self]

theorem validate_403 (r : Response) (h : r.status = 403) :
    validate_response r = ([], some (.resumable (response_error_message r))) := by
  unfold validate_response
  rw [h]
  simp

theorem run_pages_403 (cfg : StreamConfig) (fetch : Nat → Response) :
    ∀ (fuel : Nat) (tok : Option PageToken) (st : SyncState) (i j : Nat),
      j < (run_pages cfg fetch fuel tok st i).requests.length →
      (fetch (i + j)).status = 403 →
      (run_pages cfg fetch fuel tok st i).requests.length = j + 1 ∧
      (run_pages cfg fetch fuel tok st i).outcome = .ok () ∧
      LogEntry.warningLog (response_error_message (fetch (i + j))) ∈
        (run_pages cfg fetch fuel tok st i).logs := by
  intro fuel
  induction fuel with
  | zero =>
    intro tok st i j hj h403
    simp [run_pages] at hj
  | succ fuel ih =>
    intro tok st i j hj h403
    rcases hv : validate_response (fetch i) with ⟨vlogs, verr⟩
    cases verr with
    | some err =>
      cases err with
      | resumable m =>
        simp only [run_pages, hv] at hj ⊢
        simp only [List.length_cons, List.length_nil] at hj
        have hj0 : j = 0 := by omega
        subst hj0
        have h4 := validate_403 (fetch i) (by simpa using h403)
        rw [hv] at h4
        injection h4 with h4a h4b
        injection h4b with h4c
        injection h4c with h4d
        subst h4a
        subst h4d
        simp
      | retriable m =>
        simp only [run_pages, hv] at hj
        simp only [List.length_cons, List.length_nil] at hj
        have hj0 : j = 0 := by omega
        subst hj0
        have h4 := validate_403 (fetch i) (by simpa using h403)
        rw [hv] at h4
        injection h4 with h4a h4b
        cases h4b
      | fatal m =>
        simp only [run_pages, hv] at hj
        simp only [List.length_cons, List.length_nil] at hj
        have hj0 : j = 0 := by omega
        subst hj0
        have h4 := validate_403 (fetch i) (by simpa using h403)
        rw [hv] at h4
        injection h4 with h4a h4b
        cases h4b
    | none =>
      have hne403 : ∀ h0 : j = 0, False := by
        intro h0
        subst h0
        have h4 := validate_403 (fetch i) (by simpa using h403)
        rw [hv] at h4
        injection h4 with h4a h4b
        cases h4b
      cases hrk : cfg.replicationKey with
      | none =>
        by_cases hlen : (fetch i).records.length < page_size cfg.name
        · simp only [run_pages, hv, hrk, if_pos hlen] at hj ⊢
          simp only [List.length_cons, List.length_nil] at hj
          exact (hne403 (by omega)).elim
        · cases tok with
          | none =>
            simp only [run_pages, hv, hrk, if_neg hlen] at hj ⊢
            simp only [List.length_cons, List.length_nil] at hj
            exact (hne403 (by omega)).elim
          | some t =>
            cases t with
            | ts s =>
              simp only [run_pages, hv, hrk, if_neg hlen] at hj ⊢
              simp only [List.length_cons, List.length_nil] at hj
              exact (hne403 (by omega)).elim
            | int n =>
              simp only [run_pages, hv, hrk, if_neg hlen, base_offset_get_next,
                Option.map_some'] at hj ⊢
              cases j with
              | zero => exact (hne403 rfl).elim
              | succ j' =>
                simp only [List.length_cons] at hj
                have hj' : j' < (run_pages cfg fetch fuel
                    (some (.int (n + (fetch i).records.length))) st (i + 1)).requests.length := by
                  omega
                have h403' : (fetch ((i + 1) + j')).status = 403 := by
                  rw [show (i + 1) + j' = i + (j' + 1) by omega]
                  exact h403
                obtain ⟨hlen2, hout, hmem⟩ := ih _ st (i + 1) j' hj' h403'
                refine ⟨?_, ?_, ?_⟩
                · simp only [List.length_cons, hlen2]
                · exact hout
                · exact List.mem_append_right _
                    (by rw [show i + (j' + 1) = (i + 1) + j' by omega]; exact hmem)
      | some k =>
        by_cases hlen : (fetch i).records.isEmpty = true
        · simp only [run_pages, hv, hrk, if_pos hlen] at hj ⊢
          simp only [List.length_cons, List.length_nil] at hj
          exact (hne403 (by omega)).elim
        · cases hnext : get_replication_key_value
              (update_state k st (fetch i).records) (fetch i) with
          | none =>
            simp only [run_pages, hv, hrk, if_neg hlen, hnext] at hj ⊢
            simp only [List.length_cons, List.length_nil] at hj
            exact (hne403 (by omega)).elim
          | some v' =>
            simp only [run_pages, hv, hrk, if_neg hlen, hnext] at hj ⊢
            cases j with
            | zero => exact (hne403 rfl).elim
            | succ j' =>
              simp only [List.length_cons] at hj
              have hj' : j' < (run_pages cfg fetch fuel (some (.ts v'))
                  (update_state k st (fetch i).records) (i + 1)).requests.length := by
                omega
              have h403' : (fetch ((i + 1) + j')).status = 403 := by
                rw [show (i + 1) + j' = i + (j' + 1) by omega]
                exact h403
              obtain ⟨hlen2, hout, hmem⟩ := ih _ _ (i + 1) j' hj' h403'
              refine ⟨?_, ?_, ?_⟩
              · simp only [List.length_cons, hlen2]
              · exact hout
              · exact List.mem_append_right _
                  (by rw [show i + (j' + 1) = (i + 1) + j' by omega]; exact hmem)

theorem run_pages_head (cfg : StreamConfig) (fetch : Nat → Response) (fuel : Nat)
    (tok : Option PageToken) (st : SyncState) (i : Nat) :
    (run_pages cfg fetch (fuel + 1) tok st i).requests.head? =
      some (get_url_params cfg st tok) := by
  rcases hv : validate_response (fetch i) with ⟨vlogs, verr⟩
  cases verr with
  | some err => cases err <;> simp [run_pages, hv]
  | none =>
    cases hrk : cfg.replicationKey with
    | none =>
      by_cases hlen : (fetch i).records.length < page_size cfg.name
      · simp [run_pages, hv, hrk, if_pos hlen]
      · rcases tok with _ | ⟨n⟩ | ⟨s⟩ <;>
          simp [run_pages, hv, hrk, if_neg hlen, base_offset_get_next]
    | some k =>
      by_cases hlen : (fetch i).records.isEmpty = true
      · have hnil : (fetch i).records = [] := by simpa using hlen
        simp [run_pages, hv, hrk, hnil]
      · have hnil : ¬ (fetch i).records = [] := by simpa using hlen
        cases hnext : get_replication_key_value
            (update_state k st (fetch i).records) (fetch i) <;>
          simp [run_pages, hv, hrk, hnil, hnext]

theorem run_pages_cursor_next (cfg : StreamConfig) (fetch : Nat → Response) (fuel : Nat)
    (tok : Option PageToken) (st : SyncState) (i : Nat) (k v : String) (r : Rec)
    (hrk : cfg.replicationKey = some k)
    (hok : (validate_response (fetch i)).2 = none)
    (hlast : (fetch i).records.getLast? = some r)
    (hkv : List.lookup k r = some v)
    (hne : (v == "") = false) :
    (run_pages cfg fetch (fuel + 1) tok st i).requests =
      get_url_params cfg st tok ::
        (run_pages cfg fetch fuel (some (.ts v)) ⟨some v⟩ (i + 1)).requests := by
  rcases hv : validate_response (fetch i) with ⟨vlogs, verr⟩
  rw [hv] at hok
  simp only at hok
  subst hok
  have hemp : (fetch i).records.isEmpty = false := by
    cases hrec : (fetch i).records with
    | nil => rw [hrec] at hlast; cases hlast
    | cons a l => simp
  have hst : update_state k st (fetch i).records = ⟨some v⟩ := by
    unfold update_state
    rw [hlast]
    simp only [Bind.bind, Option.some_bind]
    rw [hkv]
  have hnext : get_replication_key_value (⟨some v⟩ : SyncState) (fetch i) = some v := by
    unfold get_replication_key_value
    simp [hne]
  have hnil : ¬ (fetch i).records = [] := by simpa using hemp
  simp [run_pages, hv, hrk, hnil, hst, hnext]

theorem run_pages_offset_next (cfg : StreamConfig) (fetch : Nat → Response) (fuel : Nat)
    (st : SyncState) (i n : Nat)
    (hrk : cfg.replicationKey = none)
    (hok : (validate_response (fetch i)).2 = none)
    (hfull : page_size cfg.name ≤ (fetch i).records.length) :
    (run_pages cfg fetch (fuel + 1) (some (.int n)) st i).requests =
      get_url_params cfg st (some (.int n)) ::
        (run_pages cfg fetch fuel
          (some (.int (n + (fetch i).records.length))) st (i + 1)).requests := by
  rcases hv : validate_response (fetch i) with ⟨vlogs, verr⟩
  rw [hv] at hok
  simp only at hok
  subst hok
  simp only [run_pages, hv, hrk, if_neg (Nat.not_lt.mpr hfull), base_offset_get_next,
    Option.map_some']

theorem run_pages_cursor_stop (cfg : StreamConfig) (fetch : Nat → Response) (fuel : Nat)
    (tok : Option PageToken) (st : SyncState) (i : Nat) (k : String)
    (hrk : cfg.replicationKey = some k)
    (hok : (validate_response (fetch i)).2 = none)
    (hst : (update_state k st (fetch i).records).replicationKeyValue = none) :
    (run_pages cfg fetch (fuel + 1) tok st i).requests = [get_url_params cfg st tok] := by
  rcases hv : validate_response (fetch i) with ⟨vlogs, verr⟩
  rw [hv] at hok
  simp only at hok
  subst hok
  have hnext : get_replication_key_value (update_state k st (fetch i).records) (fetch i) = none := by
    unfold get_replication_key_value
    rw [hst]
  by_cases hemp : (fetch i).records.isEmpty = true
  · have hnil : (fetch i).records = [] := by simpa using hemp
    simp [run_pages, hv, hrk, hnil]
  · have hnil : ¬ (fetch i).records = [] := by simpa using hemp
    simp [run_pages, hv, hrk, hnil, hnext]

/-! ## Claims -/

/-- C1: In cursor (replication-key) mode, for every page after the first, the
request's `$filter` parameter is the strict inequality
`"{replicationKey} gt {cursor}"`, where the cursor is the last record's
replication-key value observed in the previous response; this holds
regardless of how many records (of whatever content) the previous page
contained.  Stated at an arbitrary point of the pagination loop: when the
page at request `i` validates successfully and its last record carries
replication-key value `v`, the next request issued carries
`$filter = "{key} gt {v}"`. -/
theorem c1_cursor_gt_filter (cfg : StreamConfig) (fetch : Nat → Response)
    (fuel : Nat) (tok : Option PageToken) (st : SyncState) (i : Nat)
    (k v : String) (r : Rec)
    (hrk : cfg.replicationKey = some k)
    (hok : (validate_response (fetch i)).2 = none)
    (hlast : (fetch i).records.getLast? = some r)
    (hkv : List.lookup k r = some v)
    (hne : (v == "") = false) :
    ∃ ps2, (run_pages cfg fetch (fuel + 2) tok st i).requests.get? 1 = some ps2 ∧
      lookupParam ps2 "$filter" = some (.str (k ++ " gt " ++ v)) := by
  refine ⟨get_url_params cfg ⟨some v⟩ (some (.ts v)), ?_, ?_⟩
  · rw [run_pages_cursor_next cfg fetch (fuel + 1) tok st i k v r hrk hok hlast hkv hne]
    rw [List.get?_cons_succ, List.get?_zero]
    exact run_pages_head cfg fetch fuel (some (.ts v)) ⟨some v⟩ (i + 1)
  · rw [lookup_params_filter_ts, hrk]
    rfl

/-- Witness for C1: a concrete cursor-mode run in which the first page's
last record has `UpdatedDate = 2024-01-02T00:00:00`; the second request's
filter is the strict `"UpdatedDate gt 2024-01-02T00:00:00"`. -/
theorem c1_witness :
    ∃ ps2, (run_pages cfgCursor fetchCursorPages 2 none ⟨none⟩ 0).requests.get? 1 = some ps2 ∧
      lookupParam ps2 "$filter" =
        some (.str ("UpdatedDate" ++ " gt " ++ "2024-01-02T00:00:00")) :=
  c1_cursor_gt_filter cfgCursor fetchCursorPages 0 none ⟨none⟩ 0
    "UpdatedDate" "2024-01-02T00:00:00" [("UpdatedDate", "2024-01-02T00:00:00")]
    rfl rfl rfl rfl rfl

/-- C2: In offset mode (entity with no replication key), the pagination
cursor is an integer starting at 0, each page's request carries
`$top = pageSize` and `$skip = cursor`, and the next cursor equals the
previous cursor plus the number of records actually returned in the
previous response. -/
theorem c2_offset_pagination (cfg : StreamConfig) (fetch : Nat → Response)
    (fuel : Nat) (st : SyncState) (i n : Nat)
    (hrk : cfg.replicationKey = none)
    (hok : (validate_response (fetch i)).2 = none)
    (hfull : page_size cfg.name ≤ (fetch i).records.length) :
    initial_token cfg = some (.int 0) ∧
    (∀ m, lookupParam (get_url_params cfg st (some (.int m))) "$skip" = some (.int m) ∧
      lookupParam (get_url_params cfg st (some (.int m))) "$top" =
        some (.int (page_size cfg.name))) ∧
    ∃ ps2, (run_pages cfg fetch (fuel + 2) (some (.int n)) st i).requests.get? 1 = some ps2 ∧
      lookupParam ps2 "$skip" = some (.int (n + (fetch i).records.length)) := by
  refine ⟨?_, ?_, ?_⟩
  · unfold initial_token
    rw [hrk]
  · intro m
    exact ⟨lookup_params_skip cfg st m, lookup_params_top cfg st (some (.int m))⟩
  · refine ⟨get_url_params cfg st (some (.int (n + (fetch i).records.length))), ?_, ?_⟩
    · rw [run_pages_offset_next cfg fetch (fuel + 1) st i n hrk hok hfull]
      rw [List.get?_cons_succ, List.get?_zero]
      exact run_pages_head cfg fetch fuel _ st (i + 1)
    · exact lookup_params_skip cfg st _

/-- Witness for C2: a concrete offset-mode run over the `Users` entity
(page size 1000) whose first page returns exactly 1000 records; the second
request skips 1000. -/
theorem c2_witness :
    initial_token cfgOffset = some (.int 0) ∧
    (∀ m, lookupParam (get_url_params cfgOffset ⟨none⟩ (some (.int m))) "$skip" = some (.int m) ∧
      lookupParam (get_url_params cfgOffset ⟨none⟩ (some (.int m))) "$top" =
        some (.int (page_size cfgOffset.name))) ∧
    ∃ ps2, (run_pages cfgOffset fetchOffsetPages 2 (some (.int 0)) ⟨none⟩ 0).requests.get? 1 =
        some ps2 ∧
      lookupParam ps2 "$skip" =
        some (.int (0 + (fetchOffsetPages 0).records.length)) :=
  c2_offset_pagination cfgOffset fetchOffsetPages 0 ⟨none⟩ 0 0 rfl rfl
    (by show (1000 : Nat) ≤ (List.replicate 1000 [("Id", "1")]).length
        rw [List.length_replicate])

/-- C3: For every entity stream, if the response to request `j` has status
403 Forbidden, then that request is the run's last (no further requests are
issued for the entity), a warning carrying the underlying message is
logged, and no exception escapes the run (the outcome is success, so
sibling entity streams — which are independent runs — proceed). -/
theorem c3_forbidden_resumable (cfg : StreamConfig) (fetch : Nat → Response)
    (fuel : Nat) (st : SyncState) (j : Nat)
    (hj : j < (run_stream cfg fetch fuel st).requests.length)
    (h403 : (fetch j).status = 403) :
    (run_stream cfg fetch fuel st).requests.length = j + 1 ∧
    (run_stream cfg fetch fuel st).outcome = .ok () ∧
    LogEntry.warningLog (response_error_message (fetch j)) ∈
      (run_stream cfg fetch fuel st).logs := by
  unfold run_stream at hj ⊢
  have h := run_pages_403 cfg fetch fuel (initial_token cfg) st 0 j hj
    (by rw [Nat.zero_add]; exact h403)
  simpa using h

/-- Witness for C3: a run whose very first response is 403; exactly one
request is issued, the message is logged as a warning, and the outcome is
success. -/
theorem c3_witness :
    (run_stream cfgOffset fetch403 1 ⟨none⟩).requests.length = 0 + 1 ∧
    (run_stream cfgOffset fetch403 1 ⟨none⟩).outcome = .ok () ∧
    LogEntry.warningLog (response_error_message (fetch403 0)) ∈
      (run_stream cfgOffset fetch403 1 ⟨none⟩).logs :=
  c3_forbidden_resumable cfgOffset fetch403 1 ⟨none⟩ 0 (by decide) rfl

/-- Counterexample to C4: a 400 Bad Request whose body carries a transient
"please try again" phrase is classified as fatal for the entity, not
retriable — `validate_response` in the source inspects no body phrases, and
the generic policy treats every non-403 4xx as fatal. -/
theorem c4_counterexample :
    validate_response transient400 =
      ([], some (.fatal "An error occurred while processing this request. Please try again.")) ∧
    ∀ m, (validate_response transient400).2 ≠ some (.retriable m) := by
  constructor
  · rfl
  · intro m h
    rw [show (validate_response transient400).2 =
          some (.fatal "An error occurred while processing this request. Please try again.")
        from rfl] at h
    injection h with h1
    cases h1

/-- C4 (amended): response classification ignores the body message
entirely: every 400 Bad Request — transient phrase or not — and every other
non-403 4xx is fatal for the entity, while exactly the 5xx statuses are
surfaced as retriable to the transport collaborator's generic retry
policy. -/
theorem c4_amended_classification :
    (∀ (s : Nat) (recs : List Rec) (msg : String), 400 ≤ s → s < 500 → s ≠ 403 →
      (validate_response ⟨s, recs, msg⟩).2 = some (.fatal msg)) ∧
    (∀ (s : Nat) (recs : List Rec) (msg : String), 500 ≤ s →
      (validate_response ⟨s, recs, msg⟩).2 = some (.retriable msg)) := by
  constructor
  · intro s recs msg h1 h2 h3
    unfold validate_response
    rw [show (s == 403) = false from beq_eq_false_iff_ne.mpr h3]
    show super_validate_response ⟨s, recs, msg⟩ = some (.fatal msg)
    unfold super_validate_response
    rw [show (s / 100 == 2) = false from beq_eq_false_iff_ne.mpr (by omega)]
    simp only [Bool.false_eq_true, if_false]
    rw [if_neg (by omega)]
    rfl
  · intro s recs msg h1
    unfold validate_response
    rw [show (s == 403) = false from beq_eq_false_iff_ne.mpr (by omega)]
    show super_validate_response ⟨s, recs, msg⟩ = some (.retriable msg)
    unfold super_validate_response
    rw [show (s / 100 == 2) = false from beq_eq_false_iff_ne.mpr (by omega)]
    simp only [Bool.false_eq_true, if_false]
    rw [if_pos (by omega)]
    rfl

/-- Witness for C4 (amended): the concrete transient-phrase 400 is fatal,
and a concrete 503 is retriable. -/
theorem c4_witness :
    (validate_response
        ⟨400, [], "An error occurred while processing this request. Please try again."⟩).2 =
      some (.fatal "An error occurred while processing this request. Please try again.") ∧
    (validate_response ⟨503, [], "Service Unavailable"⟩).2 =
      some (.retriable "Service Unavailable") :=
  ⟨c4_amended_classification.1 400 []
      "An error occurred while processing this request. Please try again."
      (by decide) (by decide) (by decide),
    c4_amended_classification.2 503 [] "Service Unavailable" (by decide)⟩

/-- Counterexample to C5: with every schema property selected (filter by
the mask keeps `["a", "b"]`, the full property list), the request still
carries `$select=a,b` — the parameter is not omitted when all properties
are selected. -/
theorem c5_counterexample :
    cfgAllSelected.schemaProperties.filter cfgAllSelected.mask =
      cfgAllSelected.schemaProperties ∧
    lookupParam (get_url_params cfgAllSelected ⟨none⟩ none) "$select" =
      some (.str "a,b") :=
  ⟨rfl, rfl⟩

/-- C5 (amended): `$select` lists exactly the mask-selected property names
whenever at least one property is selected — including when all of them
are — and is omitted only when no property is selected. -/
theorem c5_amended_select (cfg : StreamConfig) (st : SyncState) (tok : Option PageToken) :
    lookupParam (get_url_params cfg st tok) "$select" =
      match (cfg.schemaProperties.filter cfg.mask).isEmpty with
      | true => none
      | false =>
        some (.str (String.intercalate "," (cfg.schemaProperties.filter cfg.mask))) :=
  lookup_params_select cfg st tok

/-- C6 (code bug): discovery's `DiscoveredEntity` carries no
`parent_entity_name`/`collection_name` fields — the dataclass declares only
`name`, `jsonschema`, `primary_keys` and `replication_key` — yet stream
construction reads both on every discovered entity, so building streams
from any successful discovery (here the spec's own Learner example) raises
`AttributeError`. -/
theorem c6_missing_relationship_fields :
    discover_entities 10 learnerRoot = .ok [learnerDiscovered] ∧
    discover_streams [learnerDiscovered] = .error "AttributeError: parent_entity_name" :=
  ⟨rfl, rfl⟩

/-- Counterexample to C7: a metadata document whose `Key/PropertyRef` names
the property `Missing`, which is not declared on its `EntityType` (the only
property is `Id`), is accepted: discovery succeeds and emits the dangling
name verbatim as a primary key, rather than failing. -/
theorem c7_counterexample :
    discover_entities 10 danglingRefRoot =
      .ok [{ name := "Things", jsonschema := [("Id", .integer)],
             primary_keys := ["Missing"], replication_key := none }] := by
  rfl

/-- C7 (amended): discovery is fatal on a missing required attribute —
`Namespace` on a `Schema`, `Name` on an `EntityType` or `PropertyRef`,
`EntityType` on an `EntitySet` — (and malformed XML is rejected by the
hardened parser before discovery runs), but a `Key/PropertyRef` naming a
property that does not exist on its `EntityType` is silently accepted and
discovery proceeds. -/
theorem c7_amended_fatal_attributes :
    discover_entities 10 noNamespaceRoot = .error "KeyError: Namespace" ∧
    discover_entities 10 noEntityTypeNameRoot = .error "KeyError: Name" ∧
    discover_entities 10 noEntitySetTypeRoot = .error "KeyError: EntityType" ∧
    discover_entities 10 noPropertyRefNameRoot = .error "KeyError: Name" ∧
    ∃ es, discover_entities 10 danglingRefRoot = .ok es ∧
      ∃ e ∈ es, e.primary_keys = ["Missing"] :=
  ⟨rfl, rfl, rfl, rfl,
    [{ name := "Things", jsonschema := [("Id", .integer)],
       primary_keys := ["Missing"], replication_key := none }], rfl,
    { name := "Things", jsonschema := [("Id", .integer)],
      primary_keys := ["Missing"], replication_key := none },
    by constructor
       · exact List.mem_singleton.mpr rfl
       · rfl⟩

/-- C8: For an EntityType whose metadata declares the key property names
`ks` in a given order (arbitrary names, arbitrary length), the emitted
`DiscoveredEntity.primary_keys` is exactly the sequence `ks`, in the same
order, for every sufficient expansion depth. -/
theorem c8_primary_keys_order (fuel : Nat) (ks : List String) :
    discover_entities (fuel + 1) (keysRoot ks) =
      .ok [{ name := "Things", jsonschema := [("Id", .integer)],
             primary_keys := ks, replication_key := none }] := by
  unfold discover_entities
  rw [ects_keysRoot, sets_keysRoot, ents_keysRoot]
  simp only [Bind.bind, Except.bind, List.mapM_cons, List.mapM_nil]
  rw [show List.lookup "NS.Thing"
        [("NS.Thing", ({ name := "Thing", properties := [("Id", "Edm.Int32")], keys := ks } : EntityInfo))] =
        some { name := "Thing", properties := [("Id", "Edm.Int32")], keys := ks } from rfl]
  rfl

/-- C9: For every entity emitted by a successful discovery,
`replication_key` equals the literal `"UpdatedDate"` if and only if the
entity's mapped schema contains a property named `UpdatedDate`; in every
other case it is absent (`none`). -/
theorem c9_replication_key_iff (fuel : Nat) (root : XmlElem)
    (es : List DiscoveredEntity) (h : discover_entities fuel root = .ok es)
    (e : DiscoveredEntity) (he : e ∈ es) :
    (e.replication_key = some "UpdatedDate" ↔
      "UpdatedDate" ∈ e.jsonschema.map Prod.fst) ∧
    (e.replication_key = some "UpdatedDate" ∨ e.replication_key = none) := by
  have hs := discover_entities_shape fuel root es h e he
  constructor
  · rw [hs]
    exact (find_updated_date e.jsonschema).1
  · cases hfind : (e.jsonschema.find? (fun p => p.1 == "UpdatedDate")).map (·.1) with
    | none => right; rw [hs, hfind]
    | some v =>
      left
      rw [hs, hfind, (find_updated_date e.jsonschema).2 v hfind]

/-- Witness for C9: discovery of the spec's Learner example yields a single
entity whose schema has an `UpdatedDate` property and whose replication key
is exactly `"UpdatedDate"`. -/
theorem c9_witness :
    (learnerDiscovered.replication_key = some "UpdatedDate" ↔
      "UpdatedDate" ∈ learnerDiscovered.jsonschema.map Prod.fst) ∧
    (learnerDiscovered.replication_key = some "UpdatedDate" ∨
      learnerDiscovered.replication_key = none) :=
  c9_replication_key_iff 10 learnerRoot [learnerDiscovered] rfl learnerDiscovered
    (List.mem_singleton.mpr rfl)

/-- C10: In cursor mode the next-page token is computed solely from the
persisted `replication_key_value` state — the callback ignores the HTTP
response entirely — and when the state holds no value as a page completes,
the callback returns `None` and the run issues no request beyond that page,
regardless of how many records the page contained. -/
theorem c10_token_from_state :
    (∀ (st : SyncState) (r1 r2 : Response),
      get_replication_key_value st r1 = get_replication_key_value st r2) ∧
    (∀ (st : SyncState) (r : Response), st.replicationKeyValue = none →
      get_replication_key_value st r = none) ∧
    (∀ (cfg : StreamConfig) (fetch : Nat → Response) (fuel : Nat)
        (tok : Option PageToken) (st : SyncState) (i : Nat) (k : String),
      cfg.replicationKey = some k →
      (validate_response (fetch i)).2 = none →
      (update_state k st (fetch i).records).replicationKeyValue = none →
      (run_pages cfg fetch (fuel + 1) tok st i).requests = [get_url_params cfg st tok]) := by
  refine ⟨fun st r1 r2 => rfl, ?_, ?_⟩
  · intro st r h
    unfold get_replication_key_value
    rw [h]
  · intro cfg fetch fuel tok st i k hrk hok hst
    exact run_pages_cursor_stop cfg fetch fuel tok st i k hrk hok hst

/-- Witness for C10: a cursor-mode run whose 2xx page carries no
replication-key values, with an empty starting state: exactly one request
is issued even though the page had records. -/
theorem c10_witness :
    (run_pages cfgCursor fetchNoKey 3 none ⟨none⟩ 0).requests =
      [get_url_params cfgCursor ⟨none⟩ none] :=
  c10_token_from_state.2.2 cfgCursor fetchNoKey 2 none ⟨none⟩ 0 "UpdatedDate" rfl rfl rfl
